import Mathlib

/-
  Verification development for the Gateway + Context Memory + Feedback
  Validation core of the FINAL-INTEGRATION repository.

  Python dictionaries are embedded as association lists of string keys and
  JSON-like values; exceptions are embedded as the error side of Except;
  wall-clock time is an explicit natural-number parameter.
-/

namespace CoreIntegrator

/-- A JSON-like Python value: None, bool, int, str, list or dict. -/
inductive Val where
  | vnone : Val
  | vbool : Bool → Val
  | vint : Int → Val
  | vstr : String → Val
  | vlist : List Val → Val
  | vdict : List (String × Val) → Val
deriving Inhabited

/-- A Python dict with string keys: an insertion-ordered association list. -/
abbrev Dict := List (String × Val)

/-- Embeds `d.get(k)`: the value at the first matching key, if any. -/
def lookupD (d : Dict) (k : String) : Option Val :=
  (d.find? (fun p => p.1 == k)).map Prod.snd

/-- Embeds `k in d`. -/
def hasKey (d : Dict) (k : String) : Bool :=
  d.any (fun p => p.1 == k)

/-- Embeds `d.get(k, dflt)`. -/
def getVal (d : Dict) (k : String) (dflt : Val) : Val :=
  (lookupD d k).getD dflt

/-- Embeds `d.setdefault(k, v)`: insert at the end only when `k` is absent. -/
def setDefault (d : Dict) (k : String) (v : Val) : Dict :=
  if hasKey d k then d else d ++ [(k, v)]

/-- Python truthiness of a value, as used by `or` and `if`. -/
def truthy : Val → Bool
  | .vnone => false
  | .vbool b => b
  | .vint n => n != 0
  | .vstr s => s != ""
  | .vlist l => !l.isEmpty
  | .vdict d => !d.isEmpty

/-- Embeds Python `a or b` on values. -/
def pyOr (a b : Val) : Val := if truthy a then a else b

/- ----------------------------------------------------------------
   Context Store (src/db/memory_adapter.py is absent from the sources;
   the store is modelled from the spec, sections 3 and 4.1).
----------------------------------------------------------------- -/

/-- One persisted request/response record for a user.  Modelled from the
spec: an Interaction has a user id, a request payload, a response payload
and a write-time timestamp. -/
structure Interaction where
  user_id : String
  request : Dict
  response : Dict
  timestamp : Nat

/-- The append-only interaction log, in insertion order. -/
abbrev MemStore := List Interaction

/-- The module tag of an interaction, read from its request payload. -/
def moduleOf (i : Interaction) : Option String :=
  match lookupD i.request "module" with
  | some (.vstr s) => some s
  | _ => none

/-- Timestamp assigned to the next write: strictly above every stored one. -/
def nextTimestamp (s : MemStore) : Nat := s.length

/-- Modelled from the spec: `store_interaction(user_id, request, response)`
appends one Interaction with a write-time timestamp
(src/db/memory_adapter.py is missing from the sources). -/
def store_interaction (s : MemStore) (uid : String) (req resp : Dict) : MemStore :=
  s ++ [⟨uid, req, resp, nextTimestamp s⟩]

/-- A store reachable by a sequence of `store_interaction` writes. -/
inductive Built : MemStore → Prop where
  | nil : Built []
  | store (s : MemStore) (uid : String) (req resp : Dict) :
      Built s → Built (store_interaction s uid req resp)

/-- The user's interactions, most recent first. -/
def userLogNewestFirst (s : MemStore) (uid : String) : List Interaction :=
  (s.filter (fun i => i.user_id == uid)).reverse

/-- Count recorded for module key `m` in the scan accumulator. -/
def seenCount (seen : List (Option String × Nat)) (m : Option String) : Nat :=
  ((seen.find? (fun p => p.1 == m)).map Prod.snd).getD 0

/-- Modelled from the spec retention policy: scanning newest-first, keep an
interaction only while fewer than `cap` interactions of the same module
have already been kept. -/
def keepCapped (cap : Nat) : List Interaction → List (Option String × Nat) → List Interaction
  | [], _ => []
  | i :: rest, seen =>
    let m := moduleOf i
    let c := seenCount seen m
    if c < cap then i :: keepCapped cap rest ((m, c + 1) :: seen)
    else keepCapped cap rest seen

/-- Modelled from the spec: `get_context(user_id, limit)` returns up to
`limit` most-recent interactions for the user, newest first, never
surfacing more than 5 per module (retention policy of section 4.1)
(src/db/memory_adapter.py is missing from the sources). -/
def get_context (s : MemStore) (uid : String) (limit : Nat) : List Interaction :=
  (keepCapped 5 (userLogNewestFirst s uid) []).take limit

/-- Modelled from the spec: full ordered history for a user, newest first,
without the warm-context cap. -/
def get_user_history (s : MemStore) (uid : String) : List Interaction :=
  userLogNewestFirst s uid

/- ----------------------------------------------------------------
   Canonical feedback schema (src/core/feedback_models.py is absent from
   the sources; modelled from the spec, section 4.2, and the constraint
   values repeated in src/fix_feedback_request.py).
----------------------------------------------------------------- -/

/-- The exact set of accepted feedback commands. -/
def validCommands : List String := ["+2", "+1", "-1", "-2"]

/-- Modelled from the spec: a normalized feedback submission
(src/core/feedback_models.py is missing from the sources). -/
structure CanonicalFeedback where
  generation_id : Int
  command : String
  user_id : String
  comment : Option String
  timestamp : Nat

/-- The raw `generation_id` field is missing, non-integer or not positive. -/
def genIdErr (d : Dict) : Bool :=
  match lookupD d "generation_id" with
  | some (.vint n) => decide (n ≤ 0)
  | _ => true

/-- The raw `command` field is missing, non-string or outside the enum. -/
def commandErr (d : Dict) : Bool :=
  match lookupD d "command" with
  | some (.vstr c) => !(validCommands.contains c)
  | _ => true

/-- The raw `user_id` field is missing, non-string or empty. -/
def userIdErr (d : Dict) : Bool :=
  match lookupD d "user_id" with
  | some (.vstr u) => u == ""
  | _ => true

/-- The raw `comment` field is present but non-string or longer than 500. -/
def commentErr (d : Dict) : Bool :=
  match lookupD d "comment" with
  | none => false
  | some .vnone => false
  | some (.vstr c) => decide (500 < c.length)
  | some _ => true

/-- Names of all violated constraints of a raw submission, collected
together (validation order is irrelevant; every failure is surfaced). -/
def violations (d : Dict) : List String :=
  (if genIdErr d then ["generation_id"] else [])
    ++ (if commandErr d then ["command"] else [])
    ++ (if userIdErr d then ["user_id"] else [])
    ++ (if commentErr d then ["comment"] else [])

/-- Parsed `generation_id` (only meaningful when `genIdErr` is false). -/
def rawGenId (d : Dict) : Int :=
  match lookupD d "generation_id" with
  | some (.vint n) => n
  | _ => 0

/-- Parsed `command` (only meaningful when `commandErr` is false). -/
def rawCommand (d : Dict) : String :=
  match lookupD d "command" with
  | some (.vstr c) => c
  | _ => ""

/-- Parsed `user_id` (only meaningful when `userIdErr` is false). -/
def rawUserId (d : Dict) : String :=
  match lookupD d "user_id" with
  | some (.vstr u) => u
  | _ => ""

/-- Parsed optional `comment`. -/
def rawComment (d : Dict) : Option String :=
  match lookupD d "comment" with
  | some (.vstr c) => some c
  | _ => none

/-- Parsed `timestamp`, defaulting to the current time when absent. -/
def rawTimestamp (d : Dict) (now : Nat) : Nat :=
  match lookupD d "timestamp" with
  | some (.vint t) => t.toNat
  | _ => now

/-- Modelled from the spec: the CanonicalFeedback constructor/validator
either returns a fully constrained value or fails with the list of every
violated constraint — no partial acceptance
(src/core/feedback_models.py is missing from the sources). -/
def validateFeedback (d : Dict) (now : Nat) : Except (List String) CanonicalFeedback :=
  if violations d = [] then
    .ok ⟨rawGenId d, rawCommand d, rawUserId d, rawComment d, rawTimestamp d now⟩
  else
    .error (violations d)

/-- Modelled from the spec: `to_storage_format()` keeps the substantive
fields and includes the timestamp. -/
def CanonicalFeedback.to_storage_format (fb : CanonicalFeedback) : Dict :=
  [("generation_id", .vint fb.generation_id),
   ("command", .vstr fb.command),
   ("user_id", .vstr fb.user_id),
   ("comment", match fb.comment with | some c => .vstr c | none => .vnone),
   ("timestamp", .vint fb.timestamp)]

/-- Modelled from the spec: `to_noopur_format()` keeps the substantive
fields and excludes the timestamp. -/
def CanonicalFeedback.to_noopur_format (fb : CanonicalFeedback) : Dict :=
  [("generation_id", .vint fb.generation_id),
   ("command", .vstr fb.command),
   ("user_id", .vstr fb.user_id),
   ("comment", match fb.comment with | some c => .vstr c | none => .vnone)]

/- ----------------------------------------------------------------
   Gateway (src/core/gateway.py is absent from the sources; modelled from
   the spec, section 4.4).
----------------------------------------------------------------- -/

/-- The uniform handler capability: intent, user id and data payload in, a
raw result value out, or a raised exception as the error side. -/
abbrev Handler := String → String → Dict → Except String Val

/-- Modelled from the spec: the Gateway holds a module registry, the set of
context-aware modules, and the context store
(src/core/gateway.py is missing from the sources). -/
structure Gateway where
  agents : List (String × Handler)
  contextModules : List String
  store : MemStore

/-- Registry resolution: the handler registered under a module name. -/
def resolve (gw : Gateway) (m : String) : Option Handler :=
  (gw.agents.find? (fun p => p.1 == m)).map Prod.snd

/-- Default success message used when wrapping a raw handler payload. -/
def defaultMessage : String := "Request processed"

/-- A handler return value already shaped like a StandardResponse: a dict
with the status, message and result keys. -/
def shapedVal : Val → Bool
  | .vdict d => hasKey d "status" && hasKey d "message" && hasKey d "result"
  | _ => false

/-- The dict carried by a value, empty for non-dict values. -/
def Val.asDict : Val → Dict
  | .vdict d => d
  | _ => []

/-- Modelled from the spec: wrap a raw handler result into the standard
envelope, passing an already StandardResponse-shaped dict through
unchanged. -/
def wrap_response (v : Val) : Dict :=
  if shapedVal v then v.asDict
  else [("status", .vstr "success"), ("message", .vstr defaultMessage), ("result", v)]

/-- The standard error envelope. -/
def errorEnvelope (msg : String) : Dict :=
  [("status", .vstr "error"), ("message", .vstr msg), ("result", .vdict [])]

/-- Modelled from the spec: `validate_feedback(data)` constructs a
CanonicalFeedback or fails with a message tagged "Invalid feedback
schema" carrying the validation detail. -/
def validate_feedback (d : Dict) (now : Nat) : Except String CanonicalFeedback :=
  match validateFeedback d now with
  | .ok fb => .ok fb
  | .error errs => .error ("Invalid feedback schema: " ++ String.intercalate ", " errs)

/-- An interaction rendered as the dict a context read hands back. -/
def Interaction.toDict (i : Interaction) : Dict :=
  [("user_id", .vstr i.user_id),
   ("request", .vdict i.request),
   ("response", .vdict i.response),
   ("timestamp", .vint (i.timestamp : Int))]

/-- Warm context for a user rendered as a list value (warm cap 3). -/
def warmContext (s : MemStore) (uid : String) : Val :=
  .vlist ((get_context s uid 3).map (fun i => .vdict i.toDict))

/-- Modelled from the spec: `process_request(module, intent, user_id,
data)` resolves the handler (absent module yields the "unknown module"
error envelope), runs feedback validation for the feedback intent,
enriches context-aware modules set-if-absent, invokes the handler catching
any raised error, wraps the result into the standard envelope without
double-wrapping, records the interaction, and returns the envelope
(src/core/gateway.py is missing from the sources). -/
def process_request (gw : Gateway) (module intent user_id : String) (data : Dict)
    (now : Nat) : Dict × Gateway :=
  match resolve gw module with
  | none => (errorEnvelope "unknown module", gw)
  | some handler =>
    if intent == "feedback" then
      match validate_feedback data now with
      | .error msg => (errorEnvelope msg, gw)
      | .ok fb =>
          ([("status", .vstr "success"),
            ("message", .vstr "Feedback processed"),
            ("result", .vdict [("feedback_data", .vdict fb.to_storage_format)])], gw)
    else
      let enriched :=
        if gw.contextModules.contains module then
          setDefault data "related_context" (warmContext gw.store user_id)
        else data
      let resp :=
        match handler intent user_id enriched with
        | .ok v => wrap_response v
        | .error e => errorEnvelope e
      let store2 := store_interaction gw.store user_id
        [("module", .vstr module), ("intent", .vstr intent), ("data", .vdict data)] resp
      (resp, { gw with store := store2 })

/- ----------------------------------------------------------------
   CreatorRouter (embedded from src/creator_routing.py).
----------------------------------------------------------------- -/

/-- The external Noopur service as seen by one `prewarm_and_prepare` call:
the outcome of `history()` and the outcome of `generate(payload)`, with a
raised exception embedded as the error side. -/
structure NoopurEnv where
  history_resp : Except String Val
  generate_resp : Dict → Except String Dict

/-- Embeds `input_data.get(k) or input_data.get("data", {}).get(k, dflt)`:
the error side records the AttributeError raised when the "data" entry is
not a dict and the inner lookup runs. -/
def getTopicLike (input_data : Dict) (k : String) (dflt : Val) : Except Unit Val :=
  let direct := getVal input_data k .vnone
  if truthy direct then .ok direct
  else
    match getVal input_data "data" (.vdict []) with
    | .vdict inner => .ok (getVal inner k dflt)
    | _ => .error ()

/-- Embeds the history block of `prewarm_and_prepare`: a list response is
attached set-if-absent under "recent_history" (last 5 entries); any other
outcome, including a raised exception, is swallowed by the inner
try/except. -/
def historyStep (env : NoopurEnv) (input_data : Dict) : Dict :=
  match env.history_resp with
  | .ok (.vlist l) => setDefault input_data "recent_history" (.vlist (l.take 5))
  | _ => input_data

/-- Embeds the local-memory fallback branch of `prewarm_and_prepare`:
`if self.memory and user_id:` attach 3 context items set-if-absent. -/
def memoryFallback (memory : Option MemStore) (user_id : String) (d : Dict) : Dict :=
  match memory with
  | some s =>
      if user_id != "" then setDefault d "related_context" (warmContext s user_id)
      else d
  | none => d

/-- Embeds `CreatorRouter.prewarm_and_prepare` from src/creator_routing.py:
extract topic/goal/type, attach recent external history set-if-absent,
generate with enhanced context when the external service is enabled and
topic and goal are truthy, otherwise fall back to the local memory
adapter; any exception escaping to the outer try/except returns the
input data as accumulated so far. -/
def prewarm_and_prepare (noopur : Option NoopurEnv) (memory : Option MemStore)
    (user_id : String) (input_data : Dict) : Dict :=
  match getTopicLike input_data "topic" .vnone,
        getTopicLike input_data "goal" .vnone,
        getTopicLike input_data "type" (.vstr "story") with
  | .ok topic, .ok goal, .ok gen_type =>
    let d1 :=
      match noopur with
      | some env => historyStep env input_data
      | none => input_data
    match noopur with
    | some env =>
      if truthy topic && truthy goal then
        match env.generate_resp [("topic", topic), ("goal", goal), ("type", gen_type)] with
        | .ok resp =>
          let d2 := setDefault d1 "related_context" (getVal resp "related_context" (.vlist []))
          if hasKey resp "generated_text" then
            setDefault d2 "generation_metadata"
              (.vdict [("source", .vstr "external"), ("can_provide_feedback", .vbool true)])
          else d2
        | .error _ => d1
      else memoryFallback memory user_id d1
    | none => memoryFallback memory user_id input_data
  | _, _, _ => input_data

/- ----------------------------------------------------------------
   CircuitBreaker and ResilientHTTPClient
   (embedded from src/src/utils/resilient_client.py).
----------------------------------------------------------------- -/

/-- The three circuit-breaker states. -/
inductive CBState where
  | CLOSED
  | OPEN
  | HALF_OPEN
deriving DecidableEq, Repr

/-- Embeds the `CircuitBreaker` class state: defaults are a failure
threshold of 3, a 60 second timeout, zero failures, no last failure and
the CLOSED state. -/
structure CircuitBreaker where
  failure_threshold : Nat := 3
  timeout : Nat := 60
  failure_count : Nat := 0
  last_failure_time : Option Nat := none
  state : CBState := .CLOSED

/-- Embeds the body of `CircuitBreaker.call` after the OPEN check: run the
wrapped function; a success in HALF_OPEN resets to CLOSED with zero
failures; a failure increments the count, records the time and opens the
breaker at the threshold, re-raising the error. -/
def runWrapped {α : Type} (cb : CircuitBreaker) (now : Nat)
    (func : Unit → Except String α) : Except String α × CircuitBreaker :=
  match func () with
  | .ok r =>
      if cb.state = .HALF_OPEN then
        (.ok r, { cb with state := .CLOSED, failure_count := 0 })
      else (.ok r, cb)
  | .error e =>
      let fc := cb.failure_count + 1
      (.error e,
       { cb with
           failure_count := fc,
           last_failure_time := some now,
           state := if cb.failure_threshold ≤ fc then .OPEN else cb.state })

/-- Embeds `CircuitBreaker.call`: while OPEN, raise "Circuit breaker is
OPEN" unless more than `timeout` seconds have passed since the last
failure, in which case move to HALF_OPEN and run the wrapped function. -/
def CircuitBreaker.call {α : Type} (cb : CircuitBreaker) (now : Nat)
    (func : Unit → Except String α) : Except String α × CircuitBreaker :=
  if cb.state = .OPEN then
    if cb.timeout < now - (cb.last_failure_time.getD 0) then
      runWrapped { cb with state := .HALF_OPEN } now func
    else (.error "Circuit breaker is OPEN", cb)
  else runWrapped cb now func

/-- The defined degradation value of the resilient client. -/
def fallbackResponse : Dict :=
  [("error", .vstr "Service unavailable"), ("fallback", .vbool true)]

/-- Embeds `ResilientHTTPClient.post`: the underlying request (retries,
timeout, raise_for_status and JSON decoding folded into one outcome) runs
through the circuit breaker; any raised error yields the fallback dict. -/
def clientPost (cb : CircuitBreaker) (now : Nat)
    (request : Unit → Except String Dict) : Dict × CircuitBreaker :=
  match CircuitBreaker.call cb now request with
  | (.ok j, cb2) => (j, cb2)
  | (.error _, cb2) => (fallbackResponse, cb2)

/-- Embeds `ResilientHTTPClient.get`: same structure as `clientPost`. -/
def clientGet (cb : CircuitBreaker) (now : Nat)
    (request : Unit → Except String Dict) : Dict × CircuitBreaker :=
  match CircuitBreaker.call cb now request with
  | (.ok j, cb2) => (j, cb2)
  | (.error _, cb2) => (fallbackResponse, cb2)

/-- A sequence of calls whose wrapped function always raises, made at the
given times. -/
def failSeq (cb : CircuitBreaker) (times : List Nat) : CircuitBreaker :=
  times.foldl (fun c t => (CircuitBreaker.call c t (fun _ => (.error "boom" : Except String Unit))).2) cb

/- ----------------------------------------------------------------
   Concrete instances used by witnesses and counterexamples.
----------------------------------------------------------------- -/

/-- Request payload number n of the retention example, tagged creator. -/
def exReq (n : Nat) : Dict :=
  [("module", .vstr "creator"), ("iteration", .vint (n : Int))]

/-- Response payload of the retention example. -/
def exResp : Dict := [("status", .vstr "success")]

/-- Seven interactions stored for user u1, all in module creator — the
scenario of test_memory_limit_enforcement. -/
def exStore7 : MemStore :=
  store_interaction (store_interaction (store_interaction (store_interaction
    (store_interaction (store_interaction (store_interaction []
      "u1" (exReq 0) exResp) "u1" (exReq 1) exResp) "u1" (exReq 2) exResp)
      "u1" (exReq 3) exResp) "u1" (exReq 4) exResp) "u1" (exReq 5) exResp)
      "u1" (exReq 6) exResp

/-- A freshly constructed breaker with the source's default arguments. -/
def freshBreaker : CircuitBreaker := {}

/-- A breaker that tripped at time 100: OPEN with the default 60 second
timeout and the threshold already reached. -/
def openBreaker : CircuitBreaker :=
  { failure_count := 3, last_failure_time := some 100, state := .OPEN }

/-- An external environment whose every call raises. -/
def failingEnv : NoopurEnv :=
  { history_resp := .error "history down",
    generate_resp := fun _ => .error "generate down" }

/-- An external environment whose generation answer carries its own
related context, for exercising the enrichment path. -/
def envEx : NoopurEnv :=
  { history_resp := .ok (.vlist [.vstr "earlier generation"]),
    generate_resp := fun _ =>
      .ok [("related_context", .vlist [.vstr "service context"]),
           ("generated_text", .vstr "generated")] }

/-- Caller data that already fixes `related_context` explicitly. -/
def dataEx : Dict :=
  [("related_context", .vstr "caller supplied"),
   ("topic", .vstr "AI"),
   ("goal", .vstr "tutorial")]

/-- A handler that already returns a full StandardResponse-shaped dict,
as SampleTextModule.process does in src/src/modules/sample_text/module.py. -/
def shapedHandler : Handler := fun _ _ _ =>
  .ok (.vdict [("status", .vstr "success"),
               ("message", .vstr "Text processed successfully"),
               ("result", .vdict [("word_count", .vint 2)])])

/-- A gateway with the sample text module registered. -/
def gwSample : Gateway :=
  { agents := [("sample_text", shapedHandler)], contextModules := [], store := [] }

/-- A plain creator handler returning a raw payload. -/
def creatorHandler : Handler := fun _ _ _ => .ok (.vdict [("content", .vstr "story")])

/-- A gateway with the creator module registered and context-aware. -/
def gwCreator : Gateway :=
  { agents := [("creator", creatorHandler)], contextModules := ["creator"], store := [] }

/-- An invalid raw feedback payload violating all four constraints. -/
def badFeedback : Dict :=
  [("generation_id", .vint 0),
   ("command", .vstr "+3"),
   ("user_id", .vstr ""),
   ("comment", .vbool true)]

/-- A valid raw feedback payload. -/
def goodFeedback : Dict :=
  [("generation_id", .vint 789),
   ("command", .vstr "+2"),
   ("user_id", .vstr "process_user")]

/- ----------------------------------------------------------------
   Dictionary lemmas.
----------------------------------------------------------------- -/

lemma lookupD_append (d l : Dict) (k : String) (h : hasKey d k = true) :
    lookupD (d ++ l) k = lookupD d k := by
  induction d with
  | nil => simp [hasKey] at h
  | cons p rest ih =>
      simp only [hasKey, List.any_cons, Bool.or_eq_true] at h
      cases hpk : (p.1 == k) with
      | true =>
          simp [lookupD, List.find?_cons, hpk]
      | false =>
          have hrest : hasKey rest k = true := by
            cases h with
            | inl h1 => rw [hpk] at h1; exact absurd h1 (by simp)
            | inr h2 => simpa [hasKey] using h2
          have h2 := ih hrest
          simp only [lookupD, List.cons_append, List.find?_cons, hpk] at h2 ⊢
          exact h2

lemma hasKey_append_left (d l : Dict) (k : String) (h : hasKey d k = true) :
    hasKey (d ++ l) k = true := by
  simp only [hasKey, List.any_append, Bool.or_eq_true]
  exact Or.inl (by simpa [hasKey] using h)

lemma hasKey_setDefault (d : Dict) (k k' : String) (v : Val) (h : hasKey d k = true) :
    hasKey (setDefault d k' v) k = true := by
  unfold setDefault
  split
  · exact h
  · exact hasKey_append_left d _ k h

lemma lookupD_setDefault (d : Dict) (k k' : String) (v : Val) (h : hasKey d k = true) :
    lookupD (setDefault d k' v) k = lookupD d k := by
  unfold setDefault
  split
  · rfl
  · exact lookupD_append d _ k h

/-- A dict extends another while preserving every key the latter holds. -/
def KeyExt (d e : Dict) : Prop :=
  ∀ k, hasKey d k = true → hasKey e k = true ∧ lookupD e k = lookupD d k

lemma KeyExt.rfl (d : Dict) : KeyExt d d := fun _ h => ⟨h, Eq.refl _⟩

lemma KeyExt.trans {d e f : Dict} (h1 : KeyExt d e) (h2 : KeyExt e f) : KeyExt d f := by
  intro k hk
  obtain ⟨he, hle⟩ := h1 k hk
  obtain ⟨hf, hlf⟩ := h2 k he
  exact ⟨hf, hlf.trans hle⟩

lemma keyExt_setDefault (d : Dict) (k : String) (v : Val) : KeyExt d (setDefault d k v) :=
  fun k' h => ⟨hasKey_setDefault d k' k v h, lookupD_setDefault d k' k v h⟩

lemma keyExt_historyStep (env : NoopurEnv) (d : Dict) : KeyExt d (historyStep env d) := by
  unfold historyStep
  split
  · exact keyExt_setDefault d _ _
  · exact KeyExt.rfl d

lemma keyExt_memoryFallback (memory : Option MemStore) (uid : String) (d : Dict) :
    KeyExt d (memoryFallback memory uid d) := by
  unfold memoryFallback
  split
  · split
    · exact keyExt_setDefault d _ _
    · exact KeyExt.rfl d
  · exact KeyExt.rfl d

/-- Every branch of `prewarm_and_prepare` only extends the caller's data
with set-if-absent writes. -/
lemma prewarm_keyExt (noopur : Option NoopurEnv) (memory : Option MemStore)
    (uid : String) (d : Dict) :
    KeyExt d (prewarm_and_prepare noopur memory uid d) := by
  unfold prewarm_and_prepare
  split
  case _ topic goal gen_type _ _ _ =>
    cases noopur with
    | none => exact keyExt_memoryFallback memory uid d
    | some env =>
        simp only
        split
        · split
          · split
            · exact ((keyExt_historyStep env d).trans
                (keyExt_setDefault _ _ _)).trans (keyExt_setDefault _ _ _)
            · exact (keyExt_historyStep env d).trans (keyExt_setDefault _ _ _)
          · exact (keyExt_historyStep env d)
        · exact (keyExt_historyStep env d).trans (keyExt_memoryFallback memory uid _)
  case _ _ _ _ =>
    exact KeyExt.rfl d

/- ----------------------------------------------------------------
   Claim theorems: enrichment and feedback formats.
----------------------------------------------------------------- -/

/-- C5: context enrichment is non-destructive — no branch of
`prewarm_and_prepare` ever overwrites a key the caller supplied; every key
present before enrichment maps to the same value afterwards. -/
theorem enrichment_non_destructive (noopur : Option NoopurEnv)
    (memory : Option MemStore) (user_id : String) (d : Dict) (k : String)
    (h : hasKey d k = true) :
    lookupD (prewarm_and_prepare noopur memory user_id d) k = lookupD d k :=
  (prewarm_keyExt noopur memory user_id d k h).2

/-- C5 witness: with the external service answering and the caller having
set `related_context` herself, the caller's value survives enrichment. -/
theorem enrichment_non_destructive_witness :
    lookupD (prewarm_and_prepare (some envEx) none "u1" dataEx) "related_context"
      = some (.vstr "caller supplied") :=
  (enrichment_non_destructive (some envEx) none "u1" dataEx "related_context"
    (by rfl)).trans (by rfl)

/-- C3: `to_noopur_format` never contains a timestamp key while keeping
the substantive fields, and `to_storage_format` always contains one
alongside the same substantive fields. -/
theorem feedback_format_exclusion (fb : CanonicalFeedback) :
    hasKey fb.to_noopur_format "timestamp" = false
    ∧ hasKey fb.to_storage_format "timestamp" = true
    ∧ lookupD fb.to_noopur_format "generation_id" = some (.vint fb.generation_id)
    ∧ lookupD fb.to_noopur_format "command" = some (.vstr fb.command)
    ∧ lookupD fb.to_noopur_format "user_id" = some (.vstr fb.user_id)
    ∧ lookupD fb.to_noopur_format "comment" = lookupD fb.to_storage_format "comment"
    ∧ lookupD fb.to_storage_format "generation_id" = some (.vint fb.generation_id)
    ∧ lookupD fb.to_storage_format "command" = some (.vstr fb.command)
    ∧ lookupD fb.to_storage_format "user_id" = some (.vstr fb.user_id)
    ∧ lookupD fb.to_storage_format "timestamp" = some (.vint fb.timestamp) :=
  ⟨rfl, rfl, rfl, rfl, rfl, rfl, rfl, rfl, rfl, rfl⟩

/- ----------------------------------------------------------------
   Claim theorems: gateway dispatch.
----------------------------------------------------------------- -/

/-- C4: wrapping a handler result into the standard envelope is
idempotent — a result already carrying status, message and result passes
through `process_request` unchanged, and any other result is wrapped as a
fresh success envelope around the raw payload. -/
theorem envelope_idempotent (gw : Gateway) (module intent user_id : String)
    (data : Dict) (now : Nat) (handler : Handler) (v : Val)
    (hres : resolve gw module = some handler)
    (hint : intent ≠ "feedback")
    (hrun : handler intent user_id
        (if gw.contextModules.contains module then
          setDefault data "related_context" (warmContext gw.store user_id)
        else data) = .ok v) :
    (process_request gw module intent user_id data now).1 = wrap_response v
    ∧ (shapedVal v = true → wrap_response v = v.asDict)
    ∧ (shapedVal v = false →
        wrap_response v
          = [("status", .vstr "success"), ("message", .vstr defaultMessage),
             ("result", v)]) := by
  refine ⟨?_, ?_, ?_⟩
  · simp only [process_request, hres]
    rw [if_neg (by simpa using hint)]
    simp only [hrun]
  · intro hs
    simp [wrap_response, hs]
  · intro hs
    simp [wrap_response, hs]

/-- C4 witness: dispatching to a handler that already returns an envelope
hands that envelope back unchanged — no double wrapping. -/
theorem envelope_idempotent_witness :
    (process_request gwSample "sample_text" "generate" "u1" [] 0).1
      = [("status", .vstr "success"),
         ("message", .vstr "Text processed successfully"),
         ("result", .vdict [("word_count", .vint 2)])] := by
  have h := envelope_idempotent gwSample "sample_text" "generate" "u1" [] 0
    shapedHandler
    (.vdict [("status", .vstr "success"),
             ("message", .vstr "Text processed successfully"),
             ("result", .vdict [("word_count", .vint 2)])])
    (by rfl) (by decide) (by rfl)
  exact (h.1.trans (h.2.1 (by rfl)))

/-- C6: a request naming a module absent from the registry yields the
structured "unknown module" error envelope, leaves the gateway state (and
so the interaction log) untouched, and never raises — `process_request`
is a total function into envelopes. -/
theorem unknown_module_response (gw : Gateway) (module intent user_id : String)
    (data : Dict) (now : Nat) (h : resolve gw module = none) :
    (process_request gw module intent user_id data now).1 = errorEnvelope "unknown module"
    ∧ lookupD (process_request gw module intent user_id data now).1 "status"
        = some (.vstr "error")
    ∧ lookupD (process_request gw module intent user_id data now).1 "message"
        = some (.vstr "unknown module")
    ∧ lookupD (process_request gw module intent user_id data now).1 "result"
        = some (.vdict [])
    ∧ (process_request gw module intent user_id data now).2 = gw := by
  have hp : process_request gw module intent user_id data now
      = (errorEnvelope "unknown module", gw) := by
    simp [process_request, h]
  rw [hp]
  exact ⟨rfl, rfl, rfl, rfl, rfl⟩

/-- C6 witness: a gateway with an empty registry answers the nonexistent
module with the error envelope and stores nothing. -/
theorem unknown_module_response_witness :
    (process_request { agents := [], contextModules := [], store := [] }
        "nonexistent" "generate" "u1" [] 0).1
      = errorEnvelope "unknown module"
    ∧ (process_request { agents := [], contextModules := [], store := [] }
        "nonexistent" "generate" "u1" [] 0).2.store = [] := by
  have h := unknown_module_response
    { agents := [], contextModules := [], store := [] }
    "nonexistent" "generate" "u1" [] 0 (by rfl)
  exact ⟨h.1, by rw [h.2.2.2.2]⟩

/-- C7: dispatching the feedback intent runs schema validation first — a
failing payload answers with an error envelope whose message carries the
"Invalid feedback schema" tag, and a valid payload answers success with
the converted feedback under the feedback_data key. -/
theorem feedback_intent_validation (gw : Gateway) (module user_id : String)
    (data : Dict) (now : Nat) (handler : Handler)
    (hres : resolve gw module = some handler) :
    (∀ errs, validateFeedback data now = .error errs →
        lookupD (process_request gw module "feedback" user_id data now).1 "status"
            = some (.vstr "error")
        ∧ ∃ detail,
            lookupD (process_request gw module "feedback" user_id data now).1 "message"
              = some (.vstr ("Invalid feedback schema: " ++ detail)))
    ∧ (∀ fb, validateFeedback data now = .ok fb →
        lookupD (process_request gw module "feedback" user_id data now).1 "status"
            = some (.vstr "success")
        ∧ ∃ res,
            lookupD (process_request gw module "feedback" user_id data now).1 "result"
              = some (.vdict res)
            ∧ hasKey res "feedback_data" = true) := by
  constructor
  · intro errs herr
    have hp : process_request gw module "feedback" user_id data now
        = (errorEnvelope ("Invalid feedback schema: " ++ String.intercalate ", " errs), gw) := by
      simp [process_request, hres, validate_feedback, herr]
    rw [hp]
    exact ⟨rfl, String.intercalate ", " errs, rfl⟩
  · intro fb hok
    have hp : process_request gw module "feedback" user_id data now
        = ([("status", .vstr "success"),
            ("message", .vstr "Feedback processed"),
            ("result", .vdict [("feedback_data", .vdict fb.to_storage_format)])], gw) := by
      simp [process_request, hres, validate_feedback, hok]
    rw [hp]
    exact ⟨rfl, [("feedback_data", .vdict fb.to_storage_format)], rfl, rfl⟩

/-- C7 witness: through a gateway with the creator module registered, the
invalid payload is rejected with the tagged message and the valid payload
is answered with feedback_data. -/
theorem feedback_intent_validation_witness :
    (lookupD (process_request gwCreator "creator" "feedback" "u1" badFeedback 0).1 "status"
        = some (.vstr "error")
      ∧ ∃ detail,
          lookupD (process_request gwCreator "creator" "feedback" "u1" badFeedback 0).1 "message"
            = some (.vstr ("Invalid feedback schema: " ++ detail)))
    ∧ (lookupD (process_request gwCreator "creator" "feedback" "u1" goodFeedback 0).1 "status"
        = some (.vstr "success")
      ∧ ∃ res,
          lookupD (process_request gwCreator "creator" "feedback" "u1" goodFeedback 0).1 "result"
            = some (.vdict res)
          ∧ hasKey res "feedback_data" = true) := by
  constructor
  · exact (feedback_intent_validation gwCreator "creator" "u1" badFeedback 0
      creatorHandler (by rfl)).1 (violations badFeedback) (by rfl)
  · exact (feedback_intent_validation gwCreator "creator" "u1" goodFeedback 0
      creatorHandler (by rfl)).2
      ⟨789, "+2", "process_user", none, 0⟩ (by rfl)

/- ----------------------------------------------------------------
   Claim theorems: feedback validation (all-or-nothing).
----------------------------------------------------------------- -/

/-- The raw submission carries a positive integer generation id. -/
def GenIdValid (d : Dict) : Prop :=
  ∃ n : Int, lookupD d "generation_id" = some (.vint n) ∧ 0 < n

/-- The raw submission carries a command from the four-value enum. -/
def CommandValid (d : Dict) : Prop :=
  ∃ c, lookupD d "command" = some (.vstr c) ∧ c ∈ validCommands

/-- The raw submission carries a non-empty string user id. -/
def UserIdValid (d : Dict) : Prop :=
  ∃ u, lookupD d "user_id" = some (.vstr u) ∧ u ≠ ""

/-- The raw submission's comment is absent, None, or a string of at most
500 characters. -/
def CommentValid (d : Dict) : Prop :=
  lookupD d "comment" = none ∨ lookupD d "comment" = some .vnone
    ∨ ∃ c, lookupD d "comment" = some (.vstr c) ∧ c.length ≤ 500

lemma genIdErr_false_iff (d : Dict) : genIdErr d = false ↔ GenIdValid d := by
  unfold genIdErr GenIdValid
  cases h : lookupD d "generation_id" with
  | none => simp
  | some v => cases v <;> simp [Int.not_le]

lemma commandErr_false_iff (d : Dict) : commandErr d = false ↔ CommandValid d := by
  unfold commandErr CommandValid
  cases h : lookupD d "command" with
  | none => simp
  | some v => cases v <;> simp [List.elem_iff]

lemma userIdErr_false_iff (d : Dict) : userIdErr d = false ↔ UserIdValid d := by
  unfold userIdErr UserIdValid
  cases h : lookupD d "user_id" with
  | none => simp
  | some v => cases v <;> simp

lemma commentErr_false_iff (d : Dict) : commentErr d = false ↔ CommentValid d := by
  unfold commentErr CommentValid
  cases h : lookupD d "comment" with
  | none => simp
  | some v => cases v <;> simp [Nat.not_lt]

lemma genIdErr_true_iff (d : Dict) : genIdErr d = true ↔ ¬ GenIdValid d := by
  rw [← genIdErr_false_iff]
  cases genIdErr d <;> simp

lemma commandErr_true_iff (d : Dict) : commandErr d = true ↔ ¬ CommandValid d := by
  rw [← commandErr_false_iff]
  cases commandErr d <;> simp

lemma userIdErr_true_iff (d : Dict) : userIdErr d = true ↔ ¬ UserIdValid d := by
  rw [← userIdErr_false_iff]
  cases userIdErr d <;> simp

lemma commentErr_true_iff (d : Dict) : commentErr d = true ↔ ¬ CommentValid d := by
  rw [← commentErr_false_iff]
  cases commentErr d <;> simp

lemma rawGenId_pos (d : Dict) (h : genIdErr d = false) : 0 < rawGenId d := by
  unfold genIdErr at h
  unfold rawGenId
  cases hl : lookupD d "generation_id" with
  | none => rw [hl] at h; simp at h
  | some v =>
      rw [hl] at h
      cases v <;> simp_all [Int.not_le]

lemma rawCommand_mem (d : Dict) (h : commandErr d = false) :
    rawCommand d ∈ validCommands := by
  unfold commandErr at h
  unfold rawCommand
  cases hl : lookupD d "command" with
  | none => rw [hl] at h; simp at h
  | some v =>
      rw [hl] at h
      cases v <;> simp_all [List.elem_iff]

lemma rawUserId_ne (d : Dict) (h : userIdErr d = false) : rawUserId d ≠ "" := by
  unfold userIdErr at h
  unfold rawUserId
  cases hl : lookupD d "user_id" with
  | none => rw [hl] at h; simp at h
  | some v =>
      rw [hl] at h
      cases v <;> simp_all

lemma rawComment_le (d : Dict) (h : commentErr d = false) :
    ∀ c, rawComment d = some c → c.length ≤ 500 := by
  unfold commentErr at h
  unfold rawComment
  cases hl : lookupD d "comment" with
  | none => simp
  | some v =>
      rw [hl] at h
      cases v <;> simp_all [Nat.not_lt]

lemma validate_ok_iff (d : Dict) (now : Nat) :
    (∃ fb, validateFeedback d now = .ok fb) ↔ violations d = [] := by
  unfold validateFeedback
  split
  · simp_all
  · simp_all

lemma violations_nil_iff (d : Dict) :
    violations d = []
      ↔ genIdErr d = false ∧ commandErr d = false ∧ userIdErr d = false
          ∧ commentErr d = false := by
  unfold violations
  cases genIdErr d <;> cases commandErr d <;> cases userIdErr d
    <;> cases commentErr d <;> simp

lemma mem_violations_genId (d : Dict) :
    "generation_id" ∈ violations d ↔ genIdErr d = true := by
  unfold violations
  cases genIdErr d <;> cases commandErr d <;> cases userIdErr d
    <;> cases commentErr d <;> decide

lemma mem_violations_command (d : Dict) :
    "command" ∈ violations d ↔ commandErr d = true := by
  unfold violations
  cases genIdErr d <;> cases commandErr d <;> cases userIdErr d
    <;> cases commentErr d <;> decide

lemma mem_violations_userId (d : Dict) :
    "user_id" ∈ violations d ↔ userIdErr d = true := by
  unfold violations
  cases genIdErr d <;> cases commandErr d <;> cases userIdErr d
    <;> cases commentErr d <;> decide

lemma mem_violations_comment (d : Dict) :
    "comment" ∈ violations d ↔ commentErr d = true := by
  unfold violations
  cases genIdErr d <;> cases commandErr d <;> cases userIdErr d
    <;> cases commentErr d <;> decide

/-- C2: the feedback validator is all-or-nothing — it succeeds exactly
when all four structural constraints hold, any produced CanonicalFeedback
satisfies all of them, and a failure reports every violated constraint,
not just the first. -/
theorem feedback_validation_complete (d : Dict) (now : Nat) :
    ((∃ fb, validateFeedback d now = .ok fb)
        ↔ (GenIdValid d ∧ CommandValid d ∧ UserIdValid d ∧ CommentValid d))
    ∧ (∀ fb, validateFeedback d now = .ok fb →
        0 < fb.generation_id ∧ fb.command ∈ validCommands ∧ fb.user_id ≠ ""
          ∧ ∀ c, fb.comment = some c → c.length ≤ 500)
    ∧ (∀ errs, validateFeedback d now = .error errs →
        errs ≠ []
        ∧ ("generation_id" ∈ errs ↔ ¬ GenIdValid d)
        ∧ ("command" ∈ errs ↔ ¬ CommandValid d)
        ∧ ("user_id" ∈ errs ↔ ¬ UserIdValid d)
        ∧ ("comment" ∈ errs ↔ ¬ CommentValid d)) := by
  refine ⟨?_, ?_, ?_⟩
  · rw [validate_ok_iff d now, violations_nil_iff d, genIdErr_false_iff,
      commandErr_false_iff, userIdErr_false_iff, commentErr_false_iff]
  · intro fb hfb
    have hv : violations d = [] :=
      (validate_ok_iff d now).mp ⟨fb, hfb⟩
    have he := (violations_nil_iff d).mp hv
    have hok : validateFeedback d now
        = .ok ⟨rawGenId d, rawCommand d, rawUserId d, rawComment d, rawTimestamp d now⟩ := by
      unfold validateFeedback
      rw [if_pos hv]
    rw [hok] at hfb
    injection hfb with hfb
    subst hfb
    exact ⟨rawGenId_pos d he.1, rawCommand_mem d he.2.1, rawUserId_ne d he.2.2.1,
      rawComment_le d he.2.2.2⟩
  · intro errs herrs
    have hv : violations d ≠ [] ∧ errs = violations d := by
      unfold validateFeedback at herrs
      by_cases h : violations d = []
      · rw [if_pos h] at herrs; cases herrs
      · rw [if_neg h] at herrs
        injection herrs with h2
        exact ⟨h, h2.symm⟩
    obtain ⟨hne, heq⟩ := hv
    subst heq
    refine ⟨hne, ?_, ?_, ?_, ?_⟩
    · rw [mem_violations_genId d, genIdErr_true_iff d]
    · rw [mem_violations_command d, commandErr_true_iff d]
    · rw [mem_violations_userId d, userIdErr_true_iff d]
    · rw [mem_violations_comment d, commentErr_true_iff d]

/-- C2 witness: a submission violating all four constraints at once is
rejected with every violation reported. -/
theorem feedback_validation_complete_witness :
    (¬ ∃ fb, validateFeedback badFeedback 0 = .ok fb)
    ∧ violations badFeedback ≠ []
    ∧ "generation_id" ∈ violations badFeedback
    ∧ "command" ∈ violations badFeedback
    ∧ "user_id" ∈ violations badFeedback
    ∧ "comment" ∈ violations badFeedback := by
  have h := feedback_validation_complete badFeedback 0
  have herr := h.2.2 (violations badFeedback) (by rfl)
  refine ⟨?_, herr.1, ?_, ?_, ?_, ?_⟩
  · intro hok
    have := h.1.mp hok
    exact absurd this.1 ((genIdErr_true_iff badFeedback).mp (by rfl))
  · exact herr.2.1.mpr ((genIdErr_true_iff badFeedback).mp (by rfl))
  · exact herr.2.2.1.mpr ((commandErr_true_iff badFeedback).mp (by rfl))
  · exact herr.2.2.2.1.mpr ((userIdErr_true_iff badFeedback).mp (by rfl))
  · exact herr.2.2.2.2.mpr ((commentErr_true_iff badFeedback).mp (by rfl))

/- ----------------------------------------------------------------
   Claim theorems: context reads for missing users.
----------------------------------------------------------------- -/

/-- C8: `get_context` never fails for missing data — for any limit, a user
with no stored interactions (unknown, or empty under the data-model
invariant that writes carry non-empty user ids) gets the empty list back,
as does the full-history read; both are total functions into lists. -/
theorem get_context_missing_user (s : MemStore) (uid : String) (L : Nat)
    (h : ∀ i ∈ s, i.user_id ≠ uid) :
    get_context s uid L = [] ∧ get_user_history s uid = [] := by
  have hf : s.filter (fun i => i.user_id == uid) = [] := by
    rw [List.filter_eq_nil_iff]
    intro a ha
    simp [h a ha]
  constructor
  · unfold get_context userLogNewestFirst
    rw [hf]
    simp [keepCapped]
  · unfold get_user_history userLogNewestFirst
    rw [hf]
    rfl

/-- C8 witness: a store holding only interactions of user u1 answers both
an unknown user and the empty user with the empty list. -/
theorem get_context_missing_user_witness :
    (get_context (store_interaction [] "u1" [("module", .vstr "creator")]
        [("status", .vstr "success")]) "fresh_user" 3 = [])
    ∧ (get_context (store_interaction [] "u1" [("module", .vstr "creator")]
        [("status", .vstr "success")]) "" 1 = []) := by
  constructor
  · exact (get_context_missing_user
      (store_interaction [] "u1" [("module", .vstr "creator")]
        [("status", .vstr "success")]) "fresh_user" 3 (by decide)).1
  · exact (get_context_missing_user
      (store_interaction [] "u1" [("module", .vstr "creator")]
        [("status", .vstr "success")]) "" 1 (by decide)).1

/- ----------------------------------------------------------------
   Claim theorems: resilience (circuit breaker and fallbacks).
----------------------------------------------------------------- -/

lemma call_open_within {α : Type} (cb : CircuitBreaker) (now t : Nat)
    (f : Unit → Except String α) (h1 : cb.state = .OPEN)
    (h2 : cb.last_failure_time = some t) (h3 : now - t ≤ cb.timeout) :
    CircuitBreaker.call cb now f = (.error "Circuit breaker is OPEN", cb) := by
  unfold CircuitBreaker.call
  rw [if_pos h1, h2]
  simp only [Option.getD_some]
  rw [if_neg (by omega)]

lemma call_error_fst {α : Type} (cb : CircuitBreaker) (now : Nat) (e : String) :
    ∃ msg, (CircuitBreaker.call cb now
      (fun _ => (Except.error e : Except String α))).1 = .error msg := by
  unfold CircuitBreaker.call runWrapped
  split
  · split
    · exact ⟨e, rfl⟩
    · exact ⟨"Circuit breaker is OPEN", rfl⟩
  · exact ⟨e, rfl⟩

lemma clientPost_of_error (cb : CircuitBreaker) (now : Nat)
    (req : Unit → Except String Dict) (msg : String)
    (h : (CircuitBreaker.call cb now req).1 = .error msg) :
    (clientPost cb now req).1 = fallbackResponse := by
  unfold clientPost
  rcases hcall : CircuitBreaker.call cb now req with ⟨res, cb2⟩
  rw [hcall] at h
  simp only at h
  rw [h]

lemma clientGet_of_error (cb : CircuitBreaker) (now : Nat)
    (req : Unit → Except String Dict) (msg : String)
    (h : (CircuitBreaker.call cb now req).1 = .error msg) :
    (clientGet cb now req).1 = fallbackResponse := by
  unfold clientGet
  rcases hcall : CircuitBreaker.call cb now req with ⟨res, cb2⟩
  rw [hcall] at h
  simp only at h
  rw [h]

/-- C9: every external call degrades to the defined fallback — a raising
request makes both post and get return the Service-unavailable dict, an
open breaker within its timeout does the same for any request, and a
fully failing enrichment pass hands the request data back unchanged
instead of an exception. -/
theorem resilient_fallback :
    (∀ (cb : CircuitBreaker) (now : Nat) (e : String),
        (clientPost cb now (fun _ => .error e)).1 = fallbackResponse)
    ∧ (∀ (cb : CircuitBreaker) (now : Nat) (e : String),
        (clientGet cb now (fun _ => .error e)).1 = fallbackResponse)
    ∧ (∀ (cb : CircuitBreaker) (now t : Nat) (req : Unit → Except String Dict),
        cb.state = .OPEN → cb.last_failure_time = some t → now - t ≤ cb.timeout →
        (clientPost cb now req).1 = fallbackResponse
        ∧ (clientGet cb now req).1 = fallbackResponse)
    ∧ (∀ (env : NoopurEnv) (memory : Option MemStore) (uid : String) (d : Dict)
        (eh eg : String),
        env.history_resp = .error eh →
        (∀ p, env.generate_resp p = .error eg) →
        truthy (getVal d "topic" .vnone) = true →
        truthy (getVal d "goal" .vnone) = true →
        prewarm_and_prepare (some env) memory uid d = d) := by
  refine ⟨?_, ?_, ?_, ?_⟩
  · intro cb now e
    obtain ⟨msg, hm⟩ := call_error_fst (α := Dict) cb now e
    exact clientPost_of_error cb now _ msg hm
  · intro cb now e
    obtain ⟨msg, hm⟩ := call_error_fst (α := Dict) cb now e
    exact clientGet_of_error cb now _ msg hm
  · intro cb now t req h1 h2 h3
    have hcall := call_open_within cb now t req h1 h2 h3
    constructor
    · exact clientPost_of_error cb now req _ (by rw [hcall])
    · exact clientGet_of_error cb now req _ (by rw [hcall])
  · intro env memory uid d eh eg ghis ggen htop hgoal
    have htopic : getTopicLike d "topic" .vnone = .ok (getVal d "topic" .vnone) := by
      unfold getTopicLike
      simp only [htop]
      rfl
    have hgoalok : getTopicLike d "goal" .vnone = .ok (getVal d "goal" .vnone) := by
      unfold getTopicLike
      simp only [hgoal]
      rfl
    cases hty : getTopicLike d "type" (.vstr "story") with
    | error u =>
        simp [prewarm_and_prepare, htopic, hgoalok, hty]
    | ok gt =>
        simp [prewarm_and_prepare, htopic, hgoalok, hty, historyStep, ghis,
          ggen, htop, hgoal]

/-- C9 witness: a concrete raising request falls back, a concrete open
breaker falls back, and a concrete fully failing enrichment hands the
request data back. -/
theorem resilient_fallback_witness :
    (clientPost freshBreaker 0 (fun _ => .error "timeout")).1 = fallbackResponse
    ∧ (clientPost openBreaker 130 (fun _ => .ok [])).1 = fallbackResponse
    ∧ prewarm_and_prepare (some failingEnv) none "u1" dataEx = dataEx := by
  refine ⟨?_, ?_, ?_⟩
  · exact resilient_fallback.1 freshBreaker 0 "timeout"
  · exact (resilient_fallback.2.2.1 openBreaker 130 100 (fun _ => .ok [])
      (by rfl) (by rfl) (by decide)).1
  · exact resilient_fallback.2.2.2 failingEnv none "u1" dataEx
      "history down" "generate down" (by rfl) (fun _ => by rfl) (by rfl) (by rfl)

/-- C10: the circuit breaker's three-state machine — freshly constructed
it is CLOSED with threshold 3 and no failures; three accumulated failures
open it; while OPEN within the timeout it raises without invoking the
wrapped function; past the timeout the next call runs half-open and a
success resets it to CLOSED with zero failures. -/
theorem circuit_breaker_state_machine :
    (freshBreaker.state = .CLOSED ∧ freshBreaker.failure_count = 0
      ∧ freshBreaker.failure_threshold = 3)
    ∧ (∀ t1 t2 t3 : Nat,
        (failSeq freshBreaker [t1, t2, t3]).state = .OPEN
        ∧ (failSeq freshBreaker [t1, t2, t3]).failure_count = 3
        ∧ (failSeq freshBreaker [t1, t2, t3]).last_failure_time = some t3)
    ∧ (∀ (α : Type) (cb : CircuitBreaker) (now t : Nat)
        (f : Unit → Except String α),
        cb.state = .OPEN → cb.last_failure_time = some t → now - t ≤ cb.timeout →
        CircuitBreaker.call cb now f = (.error "Circuit breaker is OPEN", cb))
    ∧ (∀ (α : Type) (cb : CircuitBreaker) (now t : Nat)
        (f : Unit → Except String α) (r : α),
        cb.state = .OPEN → cb.last_failure_time = some t → cb.timeout < now - t →
        f () = .ok r →
        CircuitBreaker.call cb now f
          = (.ok r, { cb with state := .CLOSED, failure_count := 0 })) := by
  refine ⟨⟨rfl, rfl, rfl⟩, ?_, ?_, ?_⟩
  · intro t1 t2 t3
    refine ⟨?_, ?_, ?_⟩ <;>
      simp [failSeq, CircuitBreaker.call, runWrapped, freshBreaker]
  · intro α cb now t f h1 h2 h3
    exact call_open_within cb now t f h1 h2 h3
  · intro α cb now t f r h1 h2 h3 hf
    unfold CircuitBreaker.call
    rw [if_pos h1, h2]
    simp only [Option.getD_some]
    rw [if_pos h3]
    unfold runWrapped
    rw [hf]
    rfl

/-- C10 witness: the default breaker opens after three failures at times
0, 1, 2; a breaker that tripped at time 100 still raises at time 120
without invoking the wrapped function; at time 200 — past the 60 second
timeout — a successful call closes it again with zero failures. -/
theorem circuit_breaker_state_machine_witness :
    (failSeq freshBreaker [0, 1, 2]).state = .OPEN
    ∧ CircuitBreaker.call openBreaker 200 (fun _ => (.ok 42 : Except String Nat))
        = (.ok 42, { openBreaker with state := .CLOSED, failure_count := 0 })
    ∧ CircuitBreaker.call openBreaker 120 (fun _ => (.ok 42 : Except String Nat))
        = (.error "Circuit breaker is OPEN", openBreaker) := by
  refine ⟨?_, ?_, ?_⟩
  · exact (circuit_breaker_state_machine.2.1 0 1 2).1
  · exact circuit_breaker_state_machine.2.2.2 Nat openBreaker 200 100
      (fun _ => .ok 42) 42 (by rfl) (by rfl) (by decide) (by rfl)
  · exact circuit_breaker_state_machine.2.2.1 Nat openBreaker 120 100
      (fun _ => .ok 42) (by rfl) (by rfl) (by decide)

/- ----------------------------------------------------------------
   Claim theorems: bounded recency with the per-module retention cap.
----------------------------------------------------------------- -/

lemma built_ts_lt (s : MemStore) (h : Built s) : ∀ i ∈ s, i.timestamp < s.length := by
  induction h with
  | nil => intro i hi; cases hi
  | store s uid req resp hb ih =>
      intro i hi
      unfold store_interaction at hi ⊢
      rw [List.mem_append] at hi
      rcases hi with hi | hi
      · have := ih i hi
        simp only [List.length_append, List.length_cons, List.length_nil]
        omega
      · simp only [List.mem_singleton] at hi
        subst hi
        simp [nextTimestamp]

lemma built_pairwise (s : MemStore) (h : Built s) :
    s.Pairwise (fun a b => a.timestamp < b.timestamp) := by
  induction h with
  | nil => exact List.Pairwise.nil
  | store s uid req resp hb ih =>
      unfold store_interaction
      rw [List.pairwise_append]
      refine ⟨ih, List.pairwise_singleton _ _, ?_⟩
      intro a ha b hb'
      simp only [List.mem_singleton] at hb'
      subst hb'
      simpa [nextTimestamp] using built_ts_lt s hb a ha

lemma keepCapped_sublist (cap : Nat) :
    ∀ (l : List Interaction) (seen : List (Option String × Nat)),
      List.Sublist (keepCapped cap l seen) l := by
  intro l
  induction l with
  | nil => intro seen; simp [keepCapped]
  | cons i rest ih =>
      intro seen
      simp only [keepCapped]
      by_cases hc : seenCount seen (moduleOf i) < cap
      · rw [if_pos hc]
        exact (ih _).cons₂ i
      · rw [if_neg hc]
        exact (ih seen).cons i

lemma get_context_pairwise (s : MemStore) (uid : String) (L : Nat) (hb : Built s) :
    (get_context s uid L).Pairwise (fun a b => b.timestamp < a.timestamp) := by
  have h2 : (s.filter (fun i => i.user_id == uid)).Pairwise
      (fun a b => a.timestamp < b.timestamp) :=
    (built_pairwise s hb).filter _
  have h3 : (userLogNewestFirst s uid).Pairwise
      (fun a b => b.timestamp < a.timestamp) := by
    unfold userLogNewestFirst
    rw [List.pairwise_reverse]
    exact h2
  have h4 := List.Pairwise.sublist
    (keepCapped_sublist 5 (userLogNewestFirst s uid) []) h3
  unfold get_context
  exact List.Pairwise.sublist (List.take_sublist _ _) h4

lemma seenCount_cons_self (m : Option String) (n : Nat)
    (seen : List (Option String × Nat)) :
    seenCount ((m, n) :: seen) m = n := by
  simp [seenCount, List.find?_cons]

lemma keepCapped_all_same (cap : Nat) (m : Option String) :
    ∀ (l : List Interaction) (seen : List (Option String × Nat)),
      (∀ i ∈ l, moduleOf i = m) →
      keepCapped cap l seen = l.take (cap - seenCount seen m) := by
  intro l
  induction l with
  | nil => intro seen _; simp [keepCapped]
  | cons i rest ih =>
      intro seen hm
      have hmi : moduleOf i = m := hm i (List.mem_cons_self i rest)
      simp only [keepCapped, hmi]
      by_cases hc : seenCount seen m < cap
      · rw [if_pos hc]
        rw [ih ((m, seenCount seen m + 1) :: seen)
          (fun j hj => hm j (List.mem_cons_of_mem i hj))]
        rw [seenCount_cons_self]
        have hcap : cap - seenCount seen m = (cap - (seenCount seen m + 1)) + 1 := by
          omega
        rw [hcap]
        rfl
      · rw [if_neg hc]
        rw [ih seen (fun j hj => hm j (List.mem_cons_of_mem i hj))]
        have hcap : cap - seenCount seen m = 0 := by omega
        rw [hcap]
        simp

/-- C1 (amended): after N interactions have been stored, `get_context(u,
limit=L)` returns exactly `min(L, R)` interactions ordered by strictly
descending timestamp, where R is the number retained under the
per-(user, module) cap of 5; when every stored interaction of the user
carries one module tag, R = min(5, N), so a read with N = 7 and L = 10 is
bounded by the retention cap at 5. -/
theorem get_context_bounded_by_cap (s : MemStore) (uid : String) (L : Nat)
    (m : Option String) (hb : Built s)
    (hm : ∀ i ∈ s, i.user_id = uid → moduleOf i = m) :
    (get_context s uid L).length
        = min L (min 5 (get_user_history s uid).length)
    ∧ (get_context s uid L).Pairwise (fun a b => b.timestamp < a.timestamp) := by
  constructor
  · have hall : ∀ i ∈ userLogNewestFirst s uid, moduleOf i = m := by
      intro i hi
      unfold userLogNewestFirst at hi
      rw [List.mem_reverse, List.mem_filter] at hi
      exact hm i hi.1 (by simpa using hi.2)
    unfold get_context get_user_history
    rw [keepCapped_all_same 5 m (userLogNewestFirst s uid) [] hall]
    have h0 : seenCount [] m = 0 := rfl
    rw [h0, Nat.sub_zero, List.length_take, List.length_take]
  · exact get_context_pairwise s uid L hb

/-- C1 counterexample: with 7 interactions stored for user u1 (all module
creator), `get_context(u1, limit=10)` does not return min(N, L) = 7 items
— the retention cap holds it at 5, so the claim's "exactly min(N, L) for
any L" clause is false as stated. -/
theorem get_context_min_counterexample :
    ¬ ((get_context exStore7 "u1" 10).length
        = min (get_user_history exStore7 "u1").length 10) := by
  decide

lemma exStore7_built : Built exStore7 := by
  unfold exStore7
  exact Built.store _ _ _ _ (Built.store _ _ _ _ (Built.store _ _ _ _
    (Built.store _ _ _ _ (Built.store _ _ _ _ (Built.store _ _ _ _
      (Built.store _ _ _ _ Built.nil))))))

/-- C1 witness: on the 7-interaction creator store, the read with limit 10
returns min(10, min(5, 7)) = 5 items in strictly descending timestamp
order. -/
theorem get_context_bounded_by_cap_witness :
    (get_context exStore7 "u1" 10).length
        = min 10 (min 5 (get_user_history exStore7 "u1").length)
    ∧ (get_context exStore7 "u1" 10).Pairwise
        (fun a b => b.timestamp < a.timestamp) :=
  get_context_bounded_by_cap exStore7 "u1" 10 (some "creator") exStore7_built
    (by decide)

end CoreIntegrator
